import Mathlib

/-!
Verification of the ScrapeOps MCP server's diagnostic and decision engine.

Shallow embedding of the TypeScript source (`src/unnamed/part_000` and
`src/src/types/index.ts`): the error classifier (`getErrorType`), the retry
loop (`makeRequest`), the permission-gated error envelope
(`generateErrorResponse` / `hasAdvancedParams`), parameter validation
(`validateParams` and the `maps_web` dispatch), the anti-bot signature
matcher (`ANTI_BOT_SIGNATURES` / `detectAntiBotsInHtml` and the
`detect_anti_bots` tool core), the JS-rendering-need analysis
(`check_js_rendering` tool core), and the selector-stability assessment
(`buildSelectorAssessment`).

Modelling conventions:
- JavaScript numbers appearing as HTTP statuses, counters and delays are
  `Nat`; signed quantities (content-length difference) are `Int`; the
  rendering text ratio is an exact rational (`ℚ`) extended with an
  infinity point, mirroring `Number.POSITIVE_INFINITY`.
- Optional / possibly-`undefined` values are `Option`; JS truthiness is
  made explicit per type (`some false`, `some ""`, `some 0` are falsy).
- The transport (`fetch`) is an oracle `Nat → TransportOutcome` giving the
  outcome of the k-th call of one `makeRequest` run; JSON-body parsing is
  modelled as always succeeding.
- Case-insensitive regular expressions of the signature tables are encoded
  by a small pattern language (`RePat`) covering exactly the shapes that
  occur in the tables: literal text, `a.*b`, and literal-then-character
  class.
-/

/-! ## String helpers (JS `String.prototype.includes` / regex literal search) -/

/-- Character-list prefix test, written out so that every proof and witness
can reduce it structurally. -/
def leadsWith : List Char → List Char → Bool
  | [], _ => true
  | _ :: _, [] => false
  | a :: as, b :: bs => a == b && leadsWith as bs

/-- Does `needle` occur contiguously somewhere in the haystack? -/
def occursIn (needle : List Char) : List Char → Bool
  | [] => needle.isEmpty
  | c :: rest => leadsWith needle (c :: rest) || occursIn needle rest

/-- JS `hay.includes(sub)` (case-sensitive substring test). -/
def strContains (hay sub : String) : Bool :=
  occursIn sub.data hay.data

/-! ## ErrorClassifier (`getErrorType`, `getErrorMessage`) -/

/-- The closed `ErrorType` union from `src/src/types/index.ts`. -/
inductive ErrorType where
  | auth_failed
  | forbidden
  | not_found
  | rate_limited
  | server_error
  | bad_gateway
  | service_unavailable
  | network_error
  | unknown
deriving DecidableEq, Repr

/-- `getErrorType` (part_000 lines 169-180): the switch over status codes,
rendered as the equivalent sequential equality tests. -/
def getErrorType (statusCode : Nat) : ErrorType :=
  if statusCode = 401 then .auth_failed
  else if statusCode = 403 then .forbidden
  else if statusCode = 404 then .not_found
  else if statusCode = 429 then .rate_limited
  else if statusCode = 500 then .server_error
  else if statusCode = 502 then .bad_gateway
  else if statusCode = 503 then .service_unavailable
  else .unknown

/-- `getErrorMessage` (part_000 lines 185-206). -/
def getErrorMessage (errorType : ErrorType) (statusCode : Nat) : String :=
  match errorType with
  | .auth_failed =>
      "Invalid API Key. Please check your SCRAPEOPS_API_KEY environment variable."
  | .forbidden =>
      "Access denied (HTTP 403). The target website may be blocking the request."
  | .not_found =>
      "Page not found (HTTP 404). Please verify the URL is correct."
  | .rate_limited =>
      "Rate limited (HTTP 429). Too many requests. Please wait before retrying."
  | .server_error =>
      "Server error (HTTP 500). The request failed on ScrapeOps servers."
  | .bad_gateway =>
      "Bad gateway (HTTP 502). There was a gateway error."
  | .service_unavailable =>
      "Service unavailable (HTTP 503). The service is temporarily down."
  | .network_error =>
      "Network error. Please check your internet connection."
  | .unknown =>
      "Request failed with status " ++ toString statusCode ++ "."

/-! ## RetryPolicy (`makeRequest`, part_000 lines 208-294) -/

/-- Outcome of one `fetch` call: either a thrown transport-level exception
with its message, or an HTTP response with status, a flag for a JSON
content type, and a textual body. -/
inductive TransportOutcome where
  | threw (msg : String)
  | resp (status : Nat) (jsonContentType : Bool) (body : String)
deriving DecidableEq, Repr

/-- Mirror of the `RequestResult` interface (types/index.ts).  Payloads are
modelled textually; `retriesAttempted` is always populated by
`makeRequest`, as in the source. -/
structure RequestResult where
  success : Bool
  data : Option String
  error : Option String
  errorType : Option ErrorType
  statusCode : Option Nat
  retriesAttempted : Nat
deriving DecidableEq, Repr

/-- One full `makeRequest` run together with its observable effects: the
number of transport calls executed and the backoff sleeps performed, in
order. -/
structure MakeRequestRun where
  result : RequestResult
  calls : Nat
  sleeps : List Nat
deriving DecidableEq, Repr

/-- JS `String(lastError)` where `lastError` starts as `null`. -/
def jsErrorText : Option String → String
  | some m => m
  | none => "null"

/-- The `return` after the `while` loop (part_000 lines 287-293). -/
def networkErrorResult (lastError : Option String) (attempt : Nat) : RequestResult :=
  { success := false
    data := none
    error := some ("Network error: " ++ jsErrorText lastError)
    errorType := some .network_error
    statusCode := none
    retriesAttempted := attempt }

/-- The `while (attempt < maxAttempts)` loop of `makeRequest`.  `fuel` is
the remaining number of loop iterations (`maxAttempts - attempt`, kept in
step by the two `attempt++; continue` paths), so the recursion is
structural and runs in the kernel.  The `status === 500` guard keeps the
source's literal form `attempt < maxAttempts - 1`. -/
def makeRequestLoop (oracle : Nat → TransportOutcome) (maxAttempts : Nat)
    (jsonFlag : Bool) :
    Nat → Nat → Nat → Nat → Option String → List Nat → MakeRequestRun
  | 0, attempt, _delay, callIdx, lastError, sleeps =>
      { result := networkErrorResult lastError attempt
        calls := callIdx, sleeps := sleeps }
  | fuel + 1, attempt, delay, callIdx, lastError, sleeps =>
      match oracle callIdx with
      | .resp status _jsonContentType body =>
          if ¬(200 ≤ status ∧ status ≤ 299) then
            if getErrorType status = .auth_failed then
              { result :=
                  { success := false, data := none
                    error := some (getErrorMessage (getErrorType status) status)
                    errorType := some (getErrorType status)
                    statusCode := some status, retriesAttempted := attempt }
                calls := callIdx + 1, sleeps := sleeps }
            else if status = 500 ∧ attempt < maxAttempts - 1 then
              makeRequestLoop oracle maxAttempts jsonFlag fuel (attempt + 1)
                (delay * 2) (callIdx + 1) lastError (sleeps ++ [delay])
            else
              { result :=
                  { success := false, data := none
                    error := some (getErrorMessage (getErrorType status) status)
                    errorType := some (getErrorType status)
                    statusCode := some status, retriesAttempted := attempt }
                calls := callIdx + 1, sleeps := sleeps }
          else
            -- 2xx: JSON is parsed when declared or requested; both payload
            -- forms are carried as the body text.
            { result :=
                { success := true, data := some body, error := none
                  errorType := none, statusCode := some status
                  retriesAttempted := attempt }
              calls := callIdx + 1, sleeps := sleeps }
      | .threw msg =>
          if attempt < 1 then
            makeRequestLoop oracle maxAttempts jsonFlag fuel (attempt + 1)
              delay (callIdx + 1) (some msg) (sleeps ++ [delay])
          else
            -- `break` falls through to the post-loop network_error return,
            -- with `lastError` just set to this exception.
            { result := networkErrorResult (some msg) attempt
              calls := callIdx + 1, sleeps := sleeps }

/-- `makeRequest`: `attempt = 0`, `delay = initialDelay`, `lastError = null`;
the loop runs while `attempt < maxAttempts`, i.e. for at most
`maxAttempts` iterations from the start. -/
def makeRequest (oracle : Nat → TransportOutcome) (maxAttempts initialDelay : Nat)
    (jsonFlag : Bool) : MakeRequestRun :=
  makeRequestLoop oracle maxAttempts jsonFlag maxAttempts 0 initialDelay 0 none []

/-! ## RecommendationBuilder / PermissionGate
(`hasAdvancedParams`, `generateErrorResponse`, part_000 lines 26-44 and 345-446) -/

/-- Mirror of the `UsedOptions` interface (types/index.ts): the options
actually applied to the outgoing request.  `none` is an absent key. -/
structure UsedOptions where
  country : Option String := none
  residential : Option Bool := none
  mobile : Option Bool := none
  premium : Option String := none
  render_js : Option Bool := none
  wait_for : Option String := none
  wait : Option Int := none
  scroll : Option Int := none
  screenshot : Option Bool := none
  bypass_level : Option String := none
  device_type : Option String := none
  follow_redirects : Option Bool := none
  return_status_codes : Option Bool := none
  keep_headers : Option Bool := none
  session_number : Option Int := none
  optimize_request : Option Bool := none
  max_request_cost : Option Int := none
deriving DecidableEq, Repr

/-- JS `value !== undefined && value !== false` for a boolean-valued key. -/
def definedNonFalseBool : Option Bool → Bool
  | some b => b
  | none => false

/-- JS `value !== undefined && value !== false` for a string-valued key:
any defined string (even `""`) passes. -/
def definedNonFalseStr : Option String → Bool
  | some _ => true
  | none => false

/-- `hasAdvancedParams` (part_000 lines 35-44): the names of the six
advanced parameters of `ADVANCED_PARAMS`, in table order, whose value in
`usedOptions` is defined and not `false`. -/
def hasAdvancedParams (params : UsedOptions) : List String :=
  (if definedNonFalseBool params.render_js then ["render_js"] else []) ++
  (if definedNonFalseBool params.residential then ["residential"] else []) ++
  (if definedNonFalseBool params.mobile then ["mobile"] else []) ++
  (if definedNonFalseStr params.premium then ["premium"] else []) ++
  (if definedNonFalseStr params.bypass_level then ["bypass_level"] else []) ++
  (if definedNonFalseBool params.optimize_request then ["optimize_request"] else [])

/-- Mirror of `SuggestedAdvancedParams` (types/index.ts). -/
structure SuggestedAdvancedParams where
  residential : Option Bool := none
  bypass_level : Option String := none
  render_js : Option Bool := none
deriving DecidableEq, Repr

/-- JS `Object.keys(suggestedAdvancedParams).length > 0`. -/
def suggestedKeysNonEmpty (s : SuggestedAdvancedParams) : Bool :=
  s.residential.isSome || s.bypass_level.isSome || s.render_js.isSome

/-- The `permission_request` block of `ErrorResponse`. -/
structure PermissionRequest where
  message : String
  question : String
  suggested_options : SuggestedAdvancedParams
  estimated_additional_cost : String
  action_required : String
deriving DecidableEq, Repr

/-- The `diagnostic` block of `ErrorResponse`. -/
structure DiagnosticBlock where
  message : String
  tried_options : List String
  possible_causes : List String
  recommendations : List String
deriving DecidableEq, Repr

/-- `options_used` is either the fixed basic-request string or the raw
`UsedOptions` object. -/
inductive OptionsUsedValue where
  | basic (text : String)
  | advanced (options : UsedOptions)
deriving DecidableEq, Repr

/-- Mirror of the `ErrorResponse` envelope (types/index.ts). -/
structure ErrorResponse where
  success : Bool
  url : String
  error : String
  error_type : ErrorType
  status_code : Option Nat
  retries_attempted : Nat
  options_used : OptionsUsedValue
  permission_request : Option PermissionRequest
  diagnostic : Option DiagnosticBlock
deriving DecidableEq, Repr

/-- JS template interpolation of a possibly-`undefined` number. -/
def jsOptNatText : Option Nat → String
  | some n => toString n
  | none => "undefined"

/-- `generateErrorResponse` (part_000 lines 345-446): builds the error
envelope, attaching `permission_request` only when the failed request was
basic and the error kind carries non-empty suggested advanced options, and
`diagnostic` only when advanced options were already used. -/
def generateErrorResponse (url error : String) (errorType : Option ErrorType)
    (statusCode : Option Nat) (usedOptions : UsedOptions)
    (retriesAttempted : Nat) : ErrorResponse :=
  let usedAdvancedParams := hasAdvancedParams usedOptions
  let wasBasicRequest := usedAdvancedParams.isEmpty
  let branch : String × Bool × SuggestedAdvancedParams :=
    match errorType with
    | some .auth_failed =>
        ("Authentication failed. Please verify your SCRAPEOPS_API_KEY is correct and has not expired.",
          false, {})
    | some .forbidden =>
        ((if wasBasicRequest then
            "The target website blocked the request (HTTP 403). This often happens with protected sites."
          else
            "The request was blocked even with advanced options: " ++
              String.intercalate ", " usedAdvancedParams ++ "."),
          wasBasicRequest,
          { residential := some true, bypass_level := some "generic_level_2" })
    | some .rate_limited =>
        ("Rate limited by the target website (HTTP 429). The site is limiting request frequency.",
          wasBasicRequest, { residential := some true })
    | some .not_found =>
        ("Page not found (HTTP 404). Please verify the URL is correct and the page exists.",
          false, {})
    | some .server_error =>
        ("Server error occurred (HTTP 500). Retried " ++ toString retriesAttempted ++
            " time(s) but the issue persists.",
          wasBasicRequest, { render_js := some true })
    | some .bad_gateway | some .service_unavailable =>
        ("Service temporarily unavailable (HTTP " ++ jsOptNatText statusCode ++
            "). This is usually a temporary issue.",
          false, {})
    | some .network_error =>
        ("Network connection error. Please check your internet connection and try again.",
          false, {})
    | some .unknown | none =>
        ((if error = "" then "An unknown error occurred." else error),
          wasBasicRequest, {})
  let userMessage := branch.1
  let canRetryWithAdvanced := branch.2.1
  let suggestedAdvancedParams := branch.2.2
  { success := false
    url := url
    error := userMessage
    error_type := errorType.getD .unknown
    status_code := statusCode
    retries_attempted := retriesAttempted
    options_used :=
      if wasBasicRequest then .basic "none (basic request with default settings)"
      else .advanced usedOptions
    permission_request :=
      if canRetryWithAdvanced && suggestedKeysNonEmpty suggestedAdvancedParams then
        some { message := "⚠️ REQUEST FOR PERMISSION: The basic request failed. I can retry with advanced scraping options that may help, but they will consume more API credits."
               question := "Would you like me to retry with the following advanced options?"
               suggested_options := suggestedAdvancedParams
               estimated_additional_cost := "Approximately 10-25 additional credits per request"
               action_required := "Please confirm by saying \"yes, retry with advanced options\" or specify which options you want to use." }
      else none
    diagnostic :=
      if ¬(canRetryWithAdvanced && suggestedKeysNonEmpty suggestedAdvancedParams = true) ∧
          ¬(wasBasicRequest = true) then
        some { message := "Advanced options were already used but the request still failed."
               tried_options := usedAdvancedParams
               possible_causes :=
                 ["The target website has very strong anti-bot protection",
                  "The URL may be incorrect or the page may not exist",
                  "The website may be experiencing issues"]
               recommendations :=
                 ["Verify the URL is correct and accessible in a browser",
                  "Try a different approach or target URL",
                  "Contact ScrapeOps support if the issue persists"] }
      else none }

/-! ## Parameter validation and the `maps_web` dispatch
(`validateParams` part_000 lines 297-336; `maps_web` execute lines 645-800) -/

/-- JS truthiness of an optional string (empty string is falsy). -/
def jsTruthyStr : Option String → Bool
  | some s => s != ""
  | none => false

/-- JS truthiness of an optional number (0 is falsy). -/
def jsTruthyInt : Option Int → Bool
  | some n => n != 0
  | none => false

/-- JS truthiness of an optional boolean. -/
def jsTruthyBool : Option Bool → Bool
  | some b => b
  | none => false

/-- Mirror of the `ValidationParams` interface (types/index.ts). -/
structure ValidationParams where
  render_js : Option Bool := none
  wait_for : Option String := none
  scroll : Option Int := none
  screenshot : Option Bool := none
  optimize_request : Option Bool := none
  bypass_level : Option String := none
  premium : Option String := none
  session_number : Option Int := none
  max_request_cost : Option Int := none
deriving DecidableEq, Repr

/-- Mirror of the `ValidationResult` interface (types/index.ts). -/
structure ValidationResult where
  valid : Bool
  errors : List String
  warnings : List String
deriving DecidableEq, Repr

/-- `validateParams` (part_000 lines 297-336): the error and warning pushes
in source order; `valid` is `errors.length === 0`. -/
def validateParams (params : ValidationParams) : ValidationResult :=
  let errors :=
    (if params.render_js = some false ∧ jsTruthyStr params.wait_for = true then
       ["Conflict: `wait_for` requires JavaScript rendering, but `render_js` is explicitly set to false. Remove `render_js: false` or remove `wait_for`."]
     else []) ++
    (if params.render_js = some false ∧ jsTruthyInt params.scroll = true then
       ["Conflict: `scroll` requires JavaScript rendering, but `render_js` is explicitly set to false. Remove `render_js: false` or remove `scroll`."]
     else []) ++
    (if params.render_js = some false ∧ jsTruthyBool params.screenshot = true then
       ["Conflict: `screenshot` requires JavaScript rendering, but `render_js` is explicitly set to false. Remove `render_js: false` or remove `screenshot`."]
     else []) ++
    (match params.session_number with
     | some n =>
         if n < 1 ∨ 10000 < n then
           ["Invalid `session_number`: must be between 1 and 10000."]
         else []
     | none => []) ++
    (if jsTruthyInt params.max_request_cost = true ∧
        ¬(jsTruthyBool params.optimize_request = true) then
       ["`max_request_cost` requires `optimize_request: true` to be set."]
     else [])
  let warnings :=
    (if jsTruthyBool params.optimize_request = true ∧
        jsTruthyStr params.bypass_level = true then
       ["Warning: Using `optimize_request` with `bypass_level` may cause conflicts. The optimizer may override your bypass settings."]
     else []) ++
    (if jsTruthyBool params.optimize_request = true ∧
        jsTruthyStr params.premium = true then
       ["Warning: Using `optimize_request` with `premium` may cause conflicts. The optimizer may override your premium settings."]
     else [])
  { valid := errors.isEmpty
    errors := errors
    warnings := warnings }

/-- The `maps_web` tool-call parameters (zod schema, part_000 lines 459-560). -/
structure MapsWebParams where
  url : String
  render_js : Option Bool := none
  screenshot : Option Bool := none
  residential : Option Bool := none
  country : Option String := none
  bypass_level : Option String := none
  wait : Option Int := none
  wait_for : Option String := none
  scroll : Option Int := none
  mobile : Option Bool := none
  premium : Option String := none
  device_type : Option String := none
  follow_redirects : Option Bool := none
  return_status_codes : Option Bool := none
  keep_headers : Option Bool := none
  session_number : Option Int := none
  optimize_request : Option Bool := none
  max_request_cost : Option Int := none
deriving DecidableEq, Repr

/-- Mirror of `ScrapeOpsRequestParams` (types/index.ts), restricted to the
fields `maps_web` assembles. -/
structure ScrapeOpsRequestParams where
  url : String
  country : Option String := none
  residential : Option Bool := none
  mobile : Option Bool := none
  premium : Option String := none
  render_js : Option Bool := none
  wait_for : Option String := none
  wait : Option Int := none
  scroll : Option Int := none
  screenshot : Option Bool := none
  json_response : Option Bool := none
  bypass : Option String := none
  device_type : Option String := none
  follow_redirects : Option Bool := none
  initial_status_code : Option Bool := none
  final_status_code : Option Bool := none
  keep_headers : Option Bool := none
  session_number : Option Int := none
  optimize_request : Option Bool := none
  max_request_cost : Option Int := none
deriving DecidableEq, Repr

/-- The option-assembly prefix of `maps_web`'s execute (part_000 lines
652-737): builds `requestParams` and `usedOptions` with the same sequence
of truthiness-guarded assignments (including the `render_js` auto-enable
for `wait_for`, `scroll` and `screenshot`). -/
def buildMapsWebRequest (p : MapsWebParams) :
    ScrapeOpsRequestParams × UsedOptions :=
  let rp : ScrapeOpsRequestParams := { url := p.url }
  let uo : UsedOptions := {}
  let (rp, uo) :=
    if jsTruthyStr p.country = true then
      ({ rp with country := p.country }, { uo with country := p.country })
    else (rp, uo)
  let (rp, uo) :=
    if jsTruthyBool p.residential = true then
      ({ rp with residential := some true }, { uo with residential := some true })
    else (rp, uo)
  let (rp, uo) :=
    if jsTruthyBool p.mobile = true then
      ({ rp with mobile := some true }, { uo with mobile := some true })
    else (rp, uo)
  let (rp, uo) :=
    if jsTruthyStr p.premium = true then
      ({ rp with premium := p.premium }, { uo with premium := p.premium })
    else (rp, uo)
  let (rp, uo) :=
    if jsTruthyBool p.render_js = true then
      ({ rp with render_js := some true }, { uo with render_js := some true })
    else (rp, uo)
  let (rp, uo) :=
    if jsTruthyStr p.wait_for = true then
      ({ rp with wait_for := p.wait_for, render_js := some true },
       { uo with wait_for := p.wait_for, render_js := some true })
    else (rp, uo)
  let (rp, uo) :=
    if jsTruthyInt p.wait = true then
      ({ rp with wait := p.wait }, { uo with wait := p.wait })
    else (rp, uo)
  let (rp, uo) :=
    if jsTruthyInt p.scroll = true then
      ({ rp with scroll := p.scroll, render_js := some true },
       { uo with scroll := p.scroll, render_js := some true })
    else (rp, uo)
  let (rp, uo) :=
    if jsTruthyBool p.screenshot = true then
      ({ rp with
          screenshot := some true
          render_js := some true
          json_response := some true },
       { uo with screenshot := some true, render_js := some true })
    else (rp, uo)
  let (rp, uo) :=
    if jsTruthyStr p.bypass_level = true then
      ({ rp with bypass := p.bypass_level }, { uo with bypass_level := p.bypass_level })
    else (rp, uo)
  let (rp, uo) :=
    if jsTruthyStr p.device_type = true then
      ({ rp with device_type := p.device_type }, { uo with device_type := p.device_type })
    else (rp, uo)
  let (rp, uo) :=
    if p.follow_redirects.isSome = true then
      ({ rp with follow_redirects := p.follow_redirects },
       { uo with follow_redirects := p.follow_redirects })
    else (rp, uo)
  let (rp, uo) :=
    if jsTruthyBool p.return_status_codes = true then
      ({ rp with
          initial_status_code := some true
          final_status_code := some true
          json_response := some true },
       { uo with return_status_codes := some true })
    else (rp, uo)
  let (rp, uo) :=
    if jsTruthyBool p.keep_headers = true then
      ({ rp with keep_headers := some true }, { uo with keep_headers := some true })
    else (rp, uo)
  let (rp, uo) :=
    if jsTruthyInt p.session_number = true then
      ({ rp with session_number := p.session_number },
       { uo with session_number := p.session_number })
    else (rp, uo)
  let (rp, uo) :=
    if jsTruthyBool p.optimize_request = true then
      (let rp := { rp with optimize_request := some true }
       let uo := { uo with optimize_request := some true }
       if jsTruthyInt p.max_request_cost = true then
         ({ rp with max_request_cost := p.max_request_cost },
          { uo with max_request_cost := p.max_request_cost })
       else (rp, uo))
    else (rp, uo)
  (rp, uo)

/-- The argument of the `validateParams` call in `maps_web` (part_000 lines
739-742): the JS spread `{...params, ...usedOptions}` restricted to the
fields `validateParams` reads — a key present in `usedOptions` overrides
the caller's value. -/
def mapsWebValidationInput (p : MapsWebParams) : ValidationParams :=
  let uo := (buildMapsWebRequest p).2
  { render_js := uo.render_js.or p.render_js
    wait_for := uo.wait_for.or p.wait_for
    scroll := uo.scroll.or p.scroll
    screenshot := uo.screenshot.or p.screenshot
    optimize_request := uo.optimize_request.or p.optimize_request
    bypass_level := uo.bypass_level.or p.bypass_level
    premium := uo.premium.or p.premium
    session_number := uo.session_number.or p.session_number
    max_request_cost := uo.max_request_cost.or p.max_request_cost }

/-- Outcome of `maps_web`'s validation gate: either the early
`Invalid parameter combination` envelope (no proxy request is issued), or
the proxy request that is handed to `makeRequest`. -/
inductive MapsWebStep where
  | invalidEnvelope (url error action_required : String)
      (validation_errors : List String)
  | proxyRequest (requestParams : ScrapeOpsRequestParams)
deriving DecidableEq, Repr

/-- The validation gate of `maps_web`'s execute (part_000 lines 739-764):
on `!validation.valid` return the error envelope without calling
`makeRequest`, otherwise proceed to the proxy request. -/
def mapsWebDispatch (p : MapsWebParams) : MapsWebStep :=
  let built := buildMapsWebRequest p
  let validation := validateParams (mapsWebValidationInput p)
  if ¬(validation.valid = true) then
    .invalidEnvelope p.url "Invalid parameter combination"
      "Please fix the parameter conflicts and try again." validation.errors
  else
    .proxyRequest built.1

/-! ## SignatureMatcher (`ANTI_BOT_SIGNATURES`, `detectAntiBotsInHtml`,
part_000 lines 1404-1572, and the `detect_anti_bots` execute core,
lines 2087-2111) -/

/-- The shapes of regular expressions appearing in the anti-bot table:
a literal string, `a.*b`, or a literal followed by one character from a
class.  All are applied case-insensitively (the `/i` flag). -/
inductive RePat where
  | lit (s : String)
  | dotStar (a b : String)
  | charClass (p : String) (cs : String)
deriving DecidableEq, Repr

/-- Does `a.*b` match somewhere in the text: an occurrence of `a` followed
(at any distance) by an occurrence of `b`. -/
def seqOccurs (a b : List Char) : List Char → Bool
  | [] => a.isEmpty && b.isEmpty
  | c :: rest =>
      (leadsWith a (c :: rest) && occursIn b ((c :: rest).drop a.length)) ||
      seqOccurs a b rest

/-- Does `p[cs]` match somewhere in the text: an occurrence of `p` followed
immediately by a character of the class `cs`. -/
def classOccurs (p cs : List Char) : List Char → Bool
  | [] => false
  | c :: rest =>
      (leadsWith p (c :: rest) &&
        (match (c :: rest).drop p.length with
         | [] => false
         | d :: _ => cs.contains d)) ||
      classOccurs p cs rest

/-- Lower-casing of a character list (the `/i` flag), kept structural so
the kernel can evaluate it. -/
def lowerChars (l : List Char) : List Char :=
  l.map Char.toLower

/-- Case-insensitive `pattern.test(text)`. -/
def RePat.test (pat : RePat) (text : String) : Bool :=
  let t := lowerChars text.data
  match pat with
  | .lit s => occursIn (lowerChars s.data) t
  | .dotStar a b => seqOccurs (lowerChars a.data) (lowerChars b.data) t
  | .charClass p cs => classOccurs (lowerChars p.data) (lowerChars cs.data) t

/-- A pattern together with its regex source text (JS `pattern.source`,
used verbatim in evidence strings). -/
structure ReSpec where
  source : String
  pat : RePat
deriving DecidableEq, Repr

/-- Mirror of the `AntiBotSignature` interface (part_000 lines 1406-1410). -/
structure AntiBotSignature where
  name : String
  challengePatterns : List ReSpec
  htmlPatterns : List ReSpec
deriving DecidableEq, Repr

/-- `ANTI_BOT_SIGNATURES` (part_000 lines 1412-1526), with each regex
carried as its source text plus its matching semantics. -/
def ANTI_BOT_SIGNATURES : List AntiBotSignature :=
  [ { name := "Cloudflare"
      challengePatterns :=
        [ ⟨"challenges\\.cloudflare\\.com", .lit "challenges.cloudflare.com"⟩,
          ⟨"cdn-cgi\\/challenge-platform", .lit "cdn-cgi/challenge-platform"⟩,
          ⟨"__cf_chl_", .lit "__cf_chl_"⟩,
          ⟨"cf-browser-verification", .lit "cf-browser-verification"⟩,
          ⟨"Attention Required! \\| Cloudflare", .lit "Attention Required! | Cloudflare"⟩,
          ⟨"Just a moment\\.\\.\\.<\\/title>", .lit "Just a moment...</title>"⟩ ]
      htmlPatterns :=
        [ ⟨"cdn-cgi\\/", .lit "cdn-cgi/"⟩,
          ⟨"cf-beacon", .lit "cf-beacon"⟩,
          ⟨"cloudflareinsights\\.com", .lit "cloudflareinsights.com"⟩,
          ⟨"cf-turnstile", .lit "cf-turnstile"⟩ ] },
    { name := "DataDome"
      challengePatterns :=
        [ ⟨"captcha\\.datadome", .lit "captcha.datadome"⟩,
          ⟨"interstitial\\.datadome", .lit "interstitial.datadome"⟩ ]
      htmlPatterns :=
        [ ⟨"datadome\\.co", .lit "datadome.co"⟩,
          ⟨"dd\\.js", .lit "dd.js"⟩,
          ⟨"tags\\.tiqcdn\\.com.*datadome", .dotStar "tags.tiqcdn.com" "datadome"⟩ ] },
    { name := "PerimeterX (HUMAN)"
      challengePatterns :=
        [ ⟨"px-captcha", .lit "px-captcha"⟩,
          ⟨"captcha\\.px-cdn\\.net", .lit "captcha.px-cdn.net"⟩ ]
      htmlPatterns :=
        [ ⟨"b\\.px-cloud\\.net", .lit "b.px-cloud.net"⟩,
          ⟨"client\\.perimeterx\\.net", .lit "client.perimeterx.net"⟩,
          ⟨"_pxhd", .lit "_pxhd"⟩ ] },
    { name := "Incapsula/Imperva"
      challengePatterns :=
        [ ⟨"_Incapsula_Resource", .lit "_Incapsula_Resource"⟩,
          ⟨"visid_incap_", .lit "visid_incap_"⟩,
          ⟨"incap_ses_", .lit "incap_ses_"⟩ ]
      htmlPatterns :=
        [ ⟨"incapsula", .lit "incapsula"⟩,
          ⟨"imperva", .lit "imperva"⟩ ] },
    { name := "Akamai Bot Manager"
      challengePatterns := [ ⟨"ak_bmsc", .lit "ak_bmsc"⟩ ]
      htmlPatterns :=
        [ ⟨"akamaihd\\.net", .lit "akamaihd.net"⟩,
          ⟨"akam\\/", .lit "akam/"⟩ ] },
    { name := "AWS WAF"
      challengePatterns :=
        [ ⟨"aws-waf-token", .lit "aws-waf-token"⟩,
          ⟨"captcha\\.awswaf", .lit "captcha.awswaf"⟩ ]
      htmlPatterns := [ ⟨"awswaf", .lit "awswaf"⟩ ] },
    { name := "Sucuri"
      challengePatterns := [ ⟨"sucuri-cloudproxy", .lit "sucuri-cloudproxy"⟩ ]
      htmlPatterns := [ ⟨"sucuri\\.net", .lit "sucuri.net"⟩ ] },
    { name := "reCAPTCHA"
      challengePatterns := []
      htmlPatterns :=
        [ ⟨"google\\.com\\/recaptcha", .lit "google.com/recaptcha"⟩,
          ⟨"g-recaptcha", .lit "g-recaptcha"⟩,
          ⟨"grecaptcha", .lit "grecaptcha"⟩ ] },
    { name := "hCaptcha"
      challengePatterns := []
      htmlPatterns :=
        [ ⟨"hcaptcha\\.com", .lit "hcaptcha.com"⟩,
          ⟨"h-captcha", .lit "h-captcha"⟩ ] },
    { name := "Kasada"
      challengePatterns := []
      htmlPatterns := [ ⟨"kasada\\.io", .lit "kasada.io"⟩ ] },
    { name := "Shape Security (F5)"
      challengePatterns := []
      htmlPatterns := [ ⟨"shapesecurity\\.com", .lit "shapesecurity.com"⟩ ] } ]

/-- Confidence tiers of a detection. -/
inductive ConfidenceLevel where
  | high
  | medium
  | low
deriving DecidableEq, Repr

/-- Mirror of the `AntiBotDetection` interface (part_000 lines 1528-1533). -/
structure AntiBotDetection where
  name : String
  confidence : ConfidenceLevel
  is_actively_blocking : Bool
  evidence : List String
deriving DecidableEq, Repr

/-- The per-signature body of the `detectAntiBotsInHtml` loop (part_000
lines 1538-1569): collect challenge and presence evidence in pattern
order, and when any pattern hit, emit the detection with the confidence
rule and `isBlocking && requestBlocked`. -/
def matchSignature (sig : AntiBotSignature) (html : String)
    (requestBlocked : Bool) : Option AntiBotDetection :=
  let chalHits := sig.challengePatterns.filter (fun p => RePat.test p.pat html)
  let htmlHits := sig.htmlPatterns.filter (fun p => RePat.test p.pat html)
  let evidence :=
    chalHits.map (fun p => "Challenge pattern: " ++ p.source) ++
    htmlHits.map (fun p => "Presence detected: " ++ p.source)
  let isBlocking := !chalHits.isEmpty
  if 0 < evidence.length then
    some
      { name := sig.name
        confidence :=
          if isBlocking = true ∨ (3 ≤ evidence.length ∧ requestBlocked = true) then
            .high
          else if 2 ≤ evidence.length ∨ requestBlocked = true then .medium
          else .low
        is_actively_blocking := isBlocking && requestBlocked
        evidence := evidence }
  else none

/-- `detectAntiBotsInHtml` (part_000 lines 1535-1572). -/
def detectAntiBotsInHtml (html : String) (requestBlocked : Bool) :
    List AntiBotDetection :=
  ANTI_BOT_SIGNATURES.filterMap (fun sig => matchSignature sig html requestBlocked)

/-- Did some challenge pattern of the signature hit the text? -/
def challengeMatched (sig : AntiBotSignature) (html : String) : Bool :=
  sig.challengePatterns.any (fun p => RePat.test p.pat html)

/-- Total number of pattern hits (challenge plus presence) of a signature
on the text. -/
def evidenceCount (sig : AntiBotSignature) (html : String) : Nat :=
  (sig.challengePatterns.filter (fun p => RePat.test p.pat html)).length +
  (sig.htmlPatterns.filter (fun p => RePat.test p.pat html)).length

/-- JS template interpolation `HTTP ${result.statusCode}`. -/
def jsOptStatusText : Option Nat → String
  | some n => toString n
  | none => "undefined"

/-- `extractHtml` (part_000 lines 1648-1657), for the textual payloads this
model carries: a failed result yields `""`, a successful one its body
text. -/
def extractHtml (result : RequestResult) : String :=
  if result.success = true then
    match result.data with
    | some s => s
    | none => ""
  else ""

/-- The detection-list portion of the `detect_anti_bots` execute (part_000
lines 2096-2111): run the signature matcher on the extracted HTML (falling
back to the error message when the HTML is empty, JS `html || (result.error
|| '')`), and when the request was blocked (403/503 failure) with no
signature hit, push the single synthetic unknown-protection detection. -/
def detectAntiBotsFromResult (result : RequestResult) : List AntiBotDetection :=
  let html := extractHtml result
  let requestBlocked :=
    !result.success &&
      (result.statusCode == some 403 || result.statusCode == some 503)
  let antiBotsDetected :=
    detectAntiBotsInHtml (if html = "" then result.error.getD "" else html)
      requestBlocked
  if requestBlocked = true ∧ antiBotsDetected.isEmpty = true then
    antiBotsDetected ++
      [ { name := "Unknown Anti-Bot Protection"
          confidence := .medium
          is_actively_blocking := true
          evidence :=
            ["Request blocked with HTTP " ++ jsOptStatusText result.statusCode] } ]
  else antiBotsDetected

/-! ## RenderingNeedAnalyzer (`check_js_rendering` execute core, part_000
lines 1965-2004) -/

/-- The JS number `contentRatio`: `Infinity`, or the exact quotient
`num / den` carried unreduced so the kernel can compute with it.  Its
real value is given by `toRatValue`. -/
inductive ContentRatio where
  | inf
  | frac (num den : Nat)
deriving DecidableEq, Repr

/-- The comparison `contentRatio > 1.5` of the source, by
cross-multiplication (`Infinity > 1.5` is true). -/
def ContentRatio.gtOnePointFive : ContentRatio → Bool
  | .inf => true
  | .frac n d => decide (3 * d < 2 * n)

/-- The rational value of a finite ratio. -/
def ContentRatio.toRatValue : ContentRatio → Option ℚ
  | .inf => none
  | .frac n d => some ((n : ℚ) / (d : ℚ))

/-- JS `contentRatio.toFixed(1)`: `Infinity` prints as `Infinity`, a
finite value is rounded to one decimal (half away from zero; the values
here are non-negative). -/
def ContentRatio.toFixed1Text : ContentRatio → String
  | .inf => "Infinity"
  | .frac n d =>
      let r := (20 * n + d) / (2 * d)
      toString (r / 10) ++ "." ++ toString (r % 10)

/-- Mirror of the `JSFrameworkDetection` interface (part_000 lines
1576-1579). -/
structure JSFrameworkDetection where
  name : String
  rendering_likely_required : Bool
deriving DecidableEq, Repr

/-- Guard of rule 2: `contentRatio > 1.5 && contentDiff > 2000`. -/
def ratioRuleHolds (ratio : ContentRatio) (diff : Int) : Bool :=
  ratio.gtOnePointFive && decide (2000 < diff)

/-- Rule 2's templated reason (part_000 line 1983). -/
def ratioRuleReason (ratio : ContentRatio) (noJsLength jsLength : Nat) : String :=
  "Rendered version has " ++ ratio.toFixed1Text ++ "x more text content (" ++
    toString noJsLength ++ " → " ++ toString jsLength ++ " chars)"

/-- Guard of rule 6: `contentDiff > 5000 && !reasons.some(r =>
r.includes('more text content'))`, evaluated against the reasons pushed so
far. -/
def diffRuleHolds (diff : Int) (earlier : List String) : Bool :=
  decide (5000 < diff) &&
    !(earlier.any (fun r => strContains r "more text content"))

/-- Rule 6's templated reason (part_000 line 2003). -/
def diffRuleReason (diff : Int) : String :=
  toString diff ++
    " characters of additional text content appear only in the rendered version"

/-- Rule 1's conditional push (part_000 lines 1976-1979). -/
def renderRule1 (noJsSuccess jsSuccess : Bool) : List String :=
  if (!noJsSuccess && jsSuccess) = true then
    ["Non-rendered request failed while rendered request succeeded"]
  else []

/-- Rule 2's conditional push (part_000 lines 1981-1984). -/
def renderRule2 (ratio : ContentRatio) (diff : Int)
    (noJsLength jsLength : Nat) : List String :=
  if ratioRuleHolds ratio diff = true then
    [ratioRuleReason ratio noJsLength jsLength]
  else []

/-- Rule 3's conditional push (part_000 lines 1986-1989). -/
def renderRule3 (emptyContainers : List String) : List String :=
  if (!emptyContainers.isEmpty) = true then
    ["Empty SPA mount points found: " ++ String.intercalate ", " emptyContainers]
  else []

/-- Rule 4's conditional push (part_000 lines 1991-1994). -/
def renderRule4 (noscriptMessages : List String) : List String :=
  if (!noscriptMessages.isEmpty) = true then
    ["<noscript> messages found: \"" ++ (noscriptMessages.headD "").take 100 ++ "\""]
  else []

/-- Rule 5's conditional push (part_000 lines 1996-1999). -/
def renderRule5 (noJsLength : Nat) (jsFrameworks : List JSFrameworkDetection) :
    List String :=
  if (decide (noJsLength < 500) &&
      jsFrameworks.any (fun f => f.rendering_likely_required)) = true then
    ["Very thin non-rendered content (" ++ toString noJsLength ++
      " chars) with JS framework detected"]
  else []

/-- Rule 6's conditional push (part_000 lines 2001-2004). -/
def renderRule6 (diff : Int) (earlier : List String) : List String :=
  if diffRuleHolds diff earlier = true then [diffRuleReason diff] else []

/-- The decision part of `check_js_rendering`'s execute (part_000 lines
1965-2004): `contentRatio` and `contentDiff`, then the six independent
rules evaluated in order with their pushes to `reasons`, `needsRendering`
being set by each triggered rule (the OR of all guards). -/
structure RenderingComparison where
  needs_rendering : Bool
  reasons : List String
  contentRatio : ContentRatio
  contentDiff : Int
deriving DecidableEq, Repr

def checkJsRenderingCore (noJsSuccess jsSuccess : Bool)
    (noJsLength jsLength : Nat) (emptyContainers noscriptMessages : List String)
    (jsFrameworks : List JSFrameworkDetection) : RenderingComparison :=
  let contentRatio : ContentRatio :=
    if noJsLength = 0 ∧ 0 < jsLength then .inf
    else if 0 < jsLength ∧ 0 < noJsLength then .frac jsLength noJsLength
    else .frac 0 1
  let contentDiff : Int := (jsLength : Int) - (noJsLength : Int)
  let firstFive :=
    renderRule1 noJsSuccess jsSuccess ++
    renderRule2 contentRatio contentDiff noJsLength jsLength ++
    renderRule3 emptyContainers ++
    renderRule4 noscriptMessages ++
    renderRule5 noJsLength jsFrameworks
  { needs_rendering :=
      (!noJsSuccess && jsSuccess) || ratioRuleHolds contentRatio contentDiff ||
      !emptyContainers.isEmpty || !noscriptMessages.isEmpty ||
      (decide (noJsLength < 500) &&
        jsFrameworks.any (fun f => f.rendering_likely_required)) ||
      diffRuleHolds contentDiff firstFive
    reasons := firstFive ++ renderRule6 contentDiff firstFive
    contentRatio := contentRatio
    contentDiff := contentDiff }

/-! ## SelectorStabilityClassifier (`buildSelectorAssessment`, part_000
lines 3571-3695) -/

/-- JS `(v * 100).toFixed(0)` for the score/ratio percentages, computed on
the rational's numerator and denominator directly (round half up for the
non-negative values that occur). -/
def pctToFixed0 (v : ℚ) : String :=
  toString ((200 * v.num + (v.den : Int)) / (2 * (v.den : Int)))

/-- JS `v.toFixed(2)` (round half up for non-negative values), two decimal
digits. -/
def ratToFixed2 (v : ℚ) : String :=
  let scaled : Int := (200 * v.num + (v.den : Int)) / (2 * (v.den : Int))
  let ip := scaled / 100
  let fp := scaled % 100
  toString ip ++ "." ++ (if fp < 10 then "0" ++ toString fp else toString fp)

/-- The `selector_comparison` sub-object, restricted to the field
`buildSelectorAssessment` reads. -/
structure SelectorComparison where
  changing_selectors : Option Int := none
deriving DecidableEq, Repr

/-- The `CSSSelectorStabilityResponse` fields that
`buildSelectorAssessment` reads. -/
structure CSSSelectorStabilityResponse where
  css_selector_stability : String
  successful_requests : Nat := 0
  total_requests : Nat := 0
  selector_comparison : Option SelectorComparison := none
deriving DecidableEq, Repr

/-- The `strategy` part of the assessment. -/
structure SelectorStrategy where
  approach : String
  use : List String
  avoid : List String
deriving DecidableEq, Repr

/-- The return shape of `buildSelectorAssessment`. -/
structure SelectorAssessment where
  summary : String
  strategy : SelectorStrategy
  recommendations : List String
deriving DecidableEq, Repr

/-- `buildSelectorAssessment` (part_000 lines 3571-3695): the four fixed
strategy templates selected by the externally supplied stability label,
with the optional metrics interpolated into the summaries.  Pure and
deterministic by construction. -/
def buildSelectorAssessment (data : CSSSelectorStabilityResponse)
    (stabilityScore randomRatio avgEntropy : Option ℚ) : SelectorAssessment :=
  let stability := data.css_selector_stability
  if stability = "stable" then
    let scoreText :=
      match stabilityScore with
      | some s => " (stability score: " ++ pctToFixed0 s ++ "%)"
      | none => ""
    { summary := "CSS selectors are stable" ++ scoreText ++
        ". Class names and IDs are consistent across page loads — safe to use for scraping."
      strategy :=
        { approach := "Standard CSS selectors — class names and IDs are reliable"
          use :=
            ["CSS class selectors (e.g., .product-title, .price)",
             "ID selectors (e.g., #product-name)",
             "Data attributes (e.g., [data-product-id])",
             "Combined selectors for precision (e.g., .product-card .title)"]
          avoid :=
            ["Overly long selector chains that break on minor DOM changes",
             "Position-based selectors like :nth-child() unless necessary"] }
      recommendations :=
        ["CSS selectors are stable — you can reliably use class names and IDs.",
         "Prefer semantic class names over structural selectors for maintainability.",
         "Use data-* attributes when available — they are typically the most stable.",
         "Test selectors periodically, as stability can change with site updates."] }
  else if stability = "obfuscated" then
    let entropyText :=
      match avgEntropy with
      | some e => " (avg entropy: " ++ ratToFixed2 e ++ ")"
      | none => ""
    let randomText :=
      match randomRatio with
      | some r => " " ++ pctToFixed0 r ++ "% of selectors appear random."
      | none => ""
    { summary := "CSS selectors are obfuscated" ++ entropyText ++ "." ++ randomText ++
        " Class names appear auto-generated with high randomness (e.g., hash-based names from CSS-in-JS, styled-components, or Tailwind JIT). Do NOT rely on class names."
      strategy :=
        { approach := "Avoid class-based selectors entirely — use structural and attribute-based targeting"
          use :=
            ["Semantic HTML tags (e.g., h1, h2, article, main, nav, section)",
             "Data attributes (e.g., [data-testid], [data-product-id])",
             "ARIA attributes (e.g., [role=\"heading\"], [aria-label])",
             "Tag + attribute combinations (e.g., input[name=\"price\"])",
             "XPath for complex structural targeting",
             "JSON-LD or embedded JSON as an alternative to HTML parsing"]
          avoid :=
            ["CSS class selectors — they change on every build/deploy",
             "ID selectors unless they are clearly semantic (not hashed)",
             "Any selector containing random strings or hash-like patterns"] }
      recommendations :=
        ["Class names are obfuscated — do NOT use them in scraping selectors.",
         "Use semantic HTML elements (h1, article, main) and data-* attributes instead.",
         "Check for JSON-LD or embedded JSON data — often more reliable than parsing obfuscated HTML.",
         "Use the identify_data_sources tool to check if data is available via API/XHR calls (avoids HTML parsing entirely).",
         "Consider using XPath expressions with text content matching for last-resort targeting.",
         "If using render_js, use the extract_data tool with LLM mode — it can handle obfuscated selectors."] }
  else if stability = "dynamic" then
    let scoreText :=
      match stabilityScore with
      | some s => " (stability score: " ++ pctToFixed0 s ++ "%)"
      | none => ""
    let changingText :=
      match data.selector_comparison with
      | some c =>
          match c.changing_selectors with
          | some n => " " ++ toString n ++ " selectors change between loads."
          | none => ""
      | none => ""
    { summary := "CSS selectors are partially dynamic" ++ scoreText ++ "." ++ changingText ++
        " Some selectors change between page loads (likely CSS Modules or build-time generated suffixes), but many remain consistent."
      strategy :=
        { approach := "Mixed strategy — use stable selectors where possible, avoid dynamic ones"
          use :=
            ["ID selectors (usually more stable than classes)",
             "Data attributes (e.g., [data-testid], [data-id])",
             "Stable class names (semantic names without hash suffixes)",
             "Attribute selectors with partial matching (e.g., [class*=\"product\"])",
             "Tag-based selectors for structural navigation"]
          avoid :=
            ["Class names with hash suffixes (e.g., .product-card_a3x7f)",
             "Classes that contain random alphanumeric sequences",
             "Full class name matching — use partial/contains matching if needed"] }
      recommendations :=
        ["Some selectors are dynamic — look for patterns with stable base names and changing hash suffixes.",
         "Use partial class matching (e.g., [class*=\"product\"]) to match the stable prefix while ignoring the dynamic suffix.",
         "Prefer data-* attributes and IDs over class names.",
         "Check for JSON-LD or embedded JSON as a more stable data source.",
         "Monitor for selector changes — dynamic selectors may shift on each deployment."] }
  else
    { summary := "Unable to determine CSS selector stability — insufficient data (" ++
        toString data.successful_requests ++ "/" ++ toString data.total_requests ++
        " requests succeeded)."
      strategy :=
        { approach := "Conservative — assume selectors may be unstable"
          use :=
            ["Semantic HTML tags (h1, h2, article, main)",
             "Data attributes",
             "ID selectors",
             "JSON-LD or embedded JSON data"]
          avoid :=
            ["Class-based selectors until stability is confirmed",
             "Complex selector chains"] }
      recommendations :=
        ["The analysis could not complete — the page may be blocking automated requests.",
         "Try running analyze_scraping_difficulty to check for anti-bot protections.",
         "Consider using detect_anti_bots to identify specific protection systems.",
         "If the page is accessible via browser, try with render_js: true."] }

/-- A concrete entropy value `21/5 = 4.2`, built directly so the kernel
can project its numerator and denominator. -/
def sampleEntropy : ℚ := ⟨21, 5, by norm_num, by norm_num⟩

/-! ## Theorems -/

theorem leadsWith_append_self (n t : List Char) : leadsWith n (n ++ t) = true := by
  induction n with
  | nil => simp [leadsWith]
  | cons a as ih => simp [leadsWith, ih]

theorem occursIn_of_leadsWith {n h : List Char} (hl : leadsWith n h = true) :
    occursIn n h = true := by
  cases h with
  | nil =>
    cases n with
    | nil => simp [occursIn, List.isEmpty]
    | cons a as => simp [leadsWith] at hl
  | cons c rest => simp [occursIn, hl]

theorem occursIn_append_self (n t : List Char) : occursIn n (n ++ t) = true :=
  occursIn_of_leadsWith (leadsWith_append_self n t)

theorem occursIn_cons_of_occursIn {n h : List Char} (c : Char)
    (hh : occursIn n h = true) : occursIn n (c :: h) = true := by
  simp [occursIn, hh]

theorem occursIn_append_left {n h : List Char} (pre : List Char)
    (hh : occursIn n h = true) : occursIn n (pre ++ h) = true := by
  induction pre with
  | nil => simpa using hh
  | cons c cs ih => simpa using occursIn_cons_of_occursIn c ih

/-- A haystack that is literally `pre ++ needle ++ post` contains the needle. -/
theorem occursIn_sandwich (pre n post : List Char) :
    occursIn n (pre ++ (n ++ post)) = true :=
  occursIn_append_left pre (occursIn_append_self n post)

/-- C5: `getErrorType` is a total function over the fixed table: 401, 403,
404, 429, 500, 502, 503 map to their named kinds and every other status
code maps to `unknown`. -/
theorem getErrorType_total_table :
    getErrorType 401 = .auth_failed ∧ getErrorType 403 = .forbidden ∧
    getErrorType 404 = .not_found ∧ getErrorType 429 = .rate_limited ∧
    getErrorType 500 = .server_error ∧ getErrorType 502 = .bad_gateway ∧
    getErrorType 503 = .service_unavailable ∧
    ∀ s : Nat, s ≠ 401 → s ≠ 403 → s ≠ 404 → s ≠ 429 → s ≠ 500 → s ≠ 502 →
      s ≠ 503 → getErrorType s = .unknown := by
  refine ⟨rfl, rfl, rfl, rfl, rfl, rfl, rfl, ?_⟩
  intro s h1 h2 h3 h4 h5 h6 h7
  simp [getErrorType, h1, h2, h3, h4, h5, h6, h7]

/-- Witness for C5 at the out-of-table status 418. -/
theorem getErrorType_total_table_witness : getErrorType 418 = .unknown :=
  getErrorType_total_table.2.2.2.2.2.2.2 418 (by decide) (by decide) (by decide)
    (by decide) (by decide) (by decide) (by decide)

/-- C2: a 401 on the first transport call is terminal for every
`maxAttempts` budget that lets the first call happen: `auth_failed`,
`retriesAttempted = 0`, no sleep is performed and no further transport call
is made. -/
theorem makeRequest_auth_failed_first_attempt
    (oracle : Nat → TransportOutcome) (M d : Nat) (jflag jct : Bool) (body : String)
    (hM : 0 < M) (h0 : oracle 0 = .resp 401 jct body) :
    makeRequest oracle M d jflag =
      { result :=
          { success := false
            data := none
            error := some "Invalid API Key. Please check your SCRAPEOPS_API_KEY environment variable."
            errorType := some .auth_failed
            statusCode := some 401
            retriesAttempted := 0 }
        calls := 1
        sleeps := [] } := by
  obtain ⟨k, rfl⟩ : ∃ k, M = k + 1 := ⟨M - 1, by omega⟩
  simp [makeRequest, makeRequestLoop, h0, getErrorType, getErrorMessage]

/-- Witness for C2 with budget 5. -/
theorem makeRequest_auth_failed_first_attempt_witness :
    makeRequest (fun _ => .resp 401 false "denied") 5 250 false =
      { result :=
          { success := false
            data := none
            error := some "Invalid API Key. Please check your SCRAPEOPS_API_KEY environment variable."
            errorType := some .auth_failed
            statusCode := some 401
            retriesAttempted := 0 }
        calls := 1
        sleeps := [] } :=
  makeRequest_auth_failed_first_attempt _ 5 250 false false "denied"
    (by decide) rfl

/-- C3 counterexample: with the default budget `maxAttempts = 1`, a first
transport exception is NOT followed by a re-execution of the transport
call — the run makes exactly one call (not two), yet still ends as a
terminal `network_error` with `retriesAttempted = 1` after one sleep. -/
theorem makeRequest_network_retry_counterexample :
    (makeRequest (fun _ => .threw "connect ECONNREFUSED") 1 1000 false).calls = 1 ∧
    ¬(makeRequest (fun _ => .threw "connect ECONNREFUSED") 1 1000 false).calls = 2 ∧
    (makeRequest (fun _ => .threw "connect ECONNREFUSED") 1 1000 false).result.errorType
      = some .network_error ∧
    (makeRequest (fun _ => .threw "connect ECONNREFUSED") 1 1000 false).result.retriesAttempted
      = 1 ∧
    (makeRequest (fun _ => .threw "connect ECONNREFUSED") 1 1000 false).sleeps = [1000] := by
  decide

/-- C3 amended: a transport exception on the first call sleeps once and
increments the attempt counter; the transport is re-executed only when
`maxAttempts ≥ 2`, in which case a second exception yields terminal
`network_error` carrying the second exception's message with
`retriesAttempted = 1`; with `maxAttempts = 1` the loop budget is already
exhausted and the same terminal `network_error` (first message) is
returned after a single transport call. -/
theorem makeRequest_network_exception_retry_amended :
    (∀ (oracle : Nat → TransportOutcome) (M d : Nat) (jflag : Bool) (m0 m1 : String),
      2 ≤ M → oracle 0 = .threw m0 → oracle 1 = .threw m1 →
      makeRequest oracle M d jflag =
        { result :=
            { success := false
              data := none
              error := some ("Network error: " ++ m1)
              errorType := some .network_error
              statusCode := none
              retriesAttempted := 1 }
          calls := 2
          sleeps := [d] }) ∧
    (∀ (oracle : Nat → TransportOutcome) (d : Nat) (jflag : Bool) (m0 : String),
      oracle 0 = .threw m0 →
      makeRequest oracle 1 d jflag =
        { result :=
            { success := false
              data := none
              error := some ("Network error: " ++ m0)
              errorType := some .network_error
              statusCode := none
              retriesAttempted := 1 }
          calls := 1
          sleeps := [d] }) := by
  constructor
  · intro oracle M d jflag m0 m1 hM h0 h1
    obtain ⟨k, rfl⟩ : ∃ k, M = k + 2 := ⟨M - 2, by omega⟩
    simp [makeRequest, makeRequestLoop, h0, h1, networkErrorResult, jsErrorText]
  · intro oracle d jflag m0 h0
    simp [makeRequest, makeRequestLoop, h0, networkErrorResult, jsErrorText]

/-- Witness for the amended C3 with budget 2. -/
theorem makeRequest_network_exception_retry_amended_witness :
    makeRequest (fun _ => .threw "boom") 2 500 false =
      { result :=
          { success := false
            data := none
            error := some ("Network error: " ++ "boom")
            errorType := some .network_error
            statusCode := none
            retriesAttempted := 1 }
        calls := 2
        sleeps := [500] } :=
  makeRequest_network_exception_retry_amended.1 _ 2 500 false "boom" "boom"
    (by decide) rfl rfl

/-- C4: among non-2xx responses only status 500 with
`attempt < maxAttempts - 1` continues the loop — any other failing status
returns immediately with the classified kind, no extra call and no extra
sleep; and a persistently failing 500 with `maxAttempts = 3` performs
exactly 2 retries with delays `initialDelay` then `2 * initialDelay`
before the terminal `server_error`. -/
theorem makeRequest_only_500_retries :
    (∀ (oracle : Nat → TransportOutcome) (M : Nat) (jflag : Bool)
        (fuel attempt delay callIdx : Nat) (lastError : Option String)
        (sleeps : List Nat) (s : Nat) (jct : Bool) (b : String),
      oracle callIdx = .resp s jct b →
      ¬(200 ≤ s ∧ s ≤ 299) →
      ¬(s = 500 ∧ attempt < M - 1) →
      makeRequestLoop oracle M jflag (fuel + 1) attempt delay callIdx lastError sleeps =
        { result :=
            { success := false
              data := none
              error := some (getErrorMessage (getErrorType s) s)
              errorType := some (getErrorType s)
              statusCode := some s
              retriesAttempted := attempt }
          calls := callIdx + 1
          sleeps := sleeps }) ∧
    (∀ (d : Nat) (jct jflag : Bool) (b : String),
      makeRequest (fun _ => .resp 500 jct b) 3 d jflag =
        { result :=
            { success := false
              data := none
              error := some "Server error (HTTP 500). The request failed on ScrapeOps servers."
              errorType := some .server_error
              statusCode := some 500
              retriesAttempted := 2 }
          calls := 3
          sleeps := [d, d * 2] }) := by
  constructor
  · intro oracle M jflag fuel attempt delay callIdx lastError sleeps s jct b h hs hretry
    simp only [makeRequestLoop, h]
    rw [if_pos hs]
    by_cases hauth : getErrorType s = .auth_failed
    · rw [if_pos hauth]
    · rw [if_neg hauth, if_neg hretry]
  · intro d jct jflag b
    simp [makeRequest, makeRequestLoop, getErrorType, getErrorMessage]

/-- Witness for C4: an immediate 502 failure and the 3-attempt 500 run. -/
theorem makeRequest_only_500_retries_witness :
    makeRequestLoop (fun _ => .resp 502 false "bad") 3 false 3 0 100 0 none [] =
      { result :=
          { success := false
            data := none
            error := some (getErrorMessage (getErrorType 502) 502)
            errorType := some (getErrorType 502)
            statusCode := some 502
            retriesAttempted := 0 }
        calls := 1
        sleeps := [] } ∧
    makeRequest (fun _ => .resp 500 false "err") 3 100 false =
      { result :=
          { success := false
            data := none
            error := some "Server error (HTTP 500). The request failed on ScrapeOps servers."
            errorType := some .server_error
            statusCode := some 500
            retriesAttempted := 2 }
        calls := 3
        sleeps := [100, 100 * 2] } :=
  ⟨makeRequest_only_500_retries.1 _ 3 false 2 0 100 0 none [] 502 false "bad"
      rfl (by decide) (by decide),
    makeRequest_only_500_retries.2 100 false false "err"⟩

theorem hasAdvancedParams_isEmpty_iff (u : UsedOptions) :
    (hasAdvancedParams u).isEmpty = true ↔ hasAdvancedParams u = [] := by
  cases h : hasAdvancedParams u <;> simp_all [List.isEmpty]

/-- C1: the envelope built by `generateErrorResponse` never carries both
`permission_request` and `diagnostic`; `permission_request` is only present
when none of the six advanced parameters had a defined non-`false` value
and the reported `error_type` is `forbidden`, `rate_limited`,
`server_error` or `unknown`; `diagnostic` is only present when at least one
advanced parameter was set on the failed request. -/
theorem generateErrorResponse_permission_gate
    (url error : String) (errorType : Option ErrorType) (statusCode : Option Nat)
    (usedOptions : UsedOptions) (retriesAttempted : Nat) :
    ¬((generateErrorResponse url error errorType statusCode usedOptions
          retriesAttempted).permission_request.isSome = true ∧
      (generateErrorResponse url error errorType statusCode usedOptions
          retriesAttempted).diagnostic.isSome = true) ∧
    ((generateErrorResponse url error errorType statusCode usedOptions
          retriesAttempted).permission_request.isSome = true →
      hasAdvancedParams usedOptions = [] ∧
      ((generateErrorResponse url error errorType statusCode usedOptions
            retriesAttempted).error_type = .forbidden ∨
       (generateErrorResponse url error errorType statusCode usedOptions
            retriesAttempted).error_type = .rate_limited ∨
       (generateErrorResponse url error errorType statusCode usedOptions
            retriesAttempted).error_type = .server_error ∨
       (generateErrorResponse url error errorType statusCode usedOptions
            retriesAttempted).error_type = .unknown)) ∧
    ((generateErrorResponse url error errorType statusCode usedOptions
          retriesAttempted).diagnostic.isSome = true →
      hasAdvancedParams usedOptions ≠ []) := by
  by_cases hb : (hasAdvancedParams usedOptions).isEmpty = true
  · have hnil : hasAdvancedParams usedOptions = [] :=
      (hasAdvancedParams_isEmpty_iff _).mp hb
    rcases errorType with _ | et
    · simp [generateErrorResponse, hb, hnil, suggestedKeysNonEmpty]
    · cases et <;> simp [generateErrorResponse, hb, hnil, suggestedKeysNonEmpty]
  · have hb' : (hasAdvancedParams usedOptions).isEmpty = false := by
      cases h : (hasAdvancedParams usedOptions).isEmpty
      · rfl
      · exact absurd h hb
    have hne : hasAdvancedParams usedOptions ≠ [] := by
      intro h
      rw [h] at hb'
      simp [List.isEmpty] at hb'
    rcases errorType with _ | et
    · simp [generateErrorResponse, hb', hne, suggestedKeysNonEmpty]
    · cases et <;> simp [generateErrorResponse, hb', hne, suggestedKeysNonEmpty]

/-- Witness for C1: a basic request failing with `forbidden`. -/
theorem generateErrorResponse_permission_gate_witness :
    ¬((generateErrorResponse "https://example.com" "denied" (some .forbidden)
          (some 403) {} 0).permission_request.isSome = true ∧
      (generateErrorResponse "https://example.com" "denied" (some .forbidden)
          (some 403) {} 0).diagnostic.isSome = true) ∧
    ((generateErrorResponse "https://example.com" "denied" (some .forbidden)
          (some 403) {} 0).permission_request.isSome = true →
      hasAdvancedParams {} = [] ∧
      ((generateErrorResponse "https://example.com" "denied" (some .forbidden)
            (some 403) {} 0).error_type = .forbidden ∨
       (generateErrorResponse "https://example.com" "denied" (some .forbidden)
            (some 403) {} 0).error_type = .rate_limited ∨
       (generateErrorResponse "https://example.com" "denied" (some .forbidden)
            (some 403) {} 0).error_type = .server_error ∨
       (generateErrorResponse "https://example.com" "denied" (some .forbidden)
            (some 403) {} 0).error_type = .unknown)) ∧
    ((generateErrorResponse "https://example.com" "denied" (some .forbidden)
          (some 403) {} 0).diagnostic.isSome = true →
      hasAdvancedParams {} ≠ []) :=
  generateErrorResponse_permission_gate "https://example.com" "denied"
    (some .forbidden) (some 403) {} 0

/-- C10: `validateParams` rejects (an error is pushed, so `valid = false`)
whenever `render_js` is explicitly `false` while `wait_for`, `scroll` or
`screenshot` is set (truthy), whenever `session_number` is defined and
outside `[1, 10000]`, and whenever `max_request_cost` is set without a
truthy `optimize_request`; `valid` is true exactly when the errors list is
empty (warnings never affect it); and whenever the merged validation input
of `maps_web` is invalid, the tool dispatches the
`Invalid parameter combination` envelope and reaches the proxy request
only on valid input. -/
theorem validateParams_and_mapsWeb_gate :
    (∀ q : ValidationParams,
      ((q.render_js = some false ∧
          (jsTruthyStr q.wait_for = true ∨ jsTruthyInt q.scroll = true ∨
            jsTruthyBool q.screenshot = true)) →
        (validateParams q).valid = false) ∧
      (∀ n : Int, q.session_number = some n → (n < 1 ∨ 10000 < n) →
        (validateParams q).valid = false) ∧
      ((jsTruthyInt q.max_request_cost = true ∧
          jsTruthyBool q.optimize_request = false) →
        (validateParams q).valid = false) ∧
      ((validateParams q).valid = true ↔ (validateParams q).errors = [])) ∧
    (∀ p : MapsWebParams,
      (validateParams (mapsWebValidationInput p)).valid = false →
      mapsWebDispatch p = .invalidEnvelope p.url "Invalid parameter combination"
        "Please fix the parameter conflicts and try again."
        (validateParams (mapsWebValidationInput p)).errors) ∧
    (∀ p : MapsWebParams,
      (∃ rp, mapsWebDispatch p = .proxyRequest rp) ↔
        (validateParams (mapsWebValidationInput p)).valid = true) := by
  refine ⟨fun q => ⟨?_, ?_, ?_, ?_⟩, ?_, ?_⟩
  · rintro ⟨hrj, hw | hs | hsc⟩
    · simp only [validateParams, hrj, hw]
      split_ifs <;> simp_all
    · simp only [validateParams, hrj, hs]
      split_ifs <;> simp_all
    · simp only [validateParams, hrj, hsc]
      split_ifs <;> simp_all
  · intro n hn hrange
    simp only [validateParams, hn]
    rw [if_pos hrange]
    split_ifs <;> simp_all
  · rintro ⟨hc, ho⟩
    simp only [validateParams, hc, ho]
    split_ifs <;> simp_all
  · simp only [validateParams]
    split_ifs <;> simp_all
  · intro p h
    simp [mapsWebDispatch, h]
  · intro p
    by_cases hv : (validateParams (mapsWebValidationInput p)).valid = true
    · simp [mapsWebDispatch, hv]
    · simp [mapsWebDispatch, hv]

/-- Witness for C10: `render_js: false` with `wait_for` set is rejected,
and a `maps_web` call with an out-of-range `session_number` dispatches the
invalid-parameter envelope. -/
theorem validateParams_and_mapsWeb_gate_witness :
    (validateParams { render_js := some false, wait_for := some ".x" }).valid = false ∧
    mapsWebDispatch { url := "https://example.com", session_number := some 20000 } =
      .invalidEnvelope "https://example.com" "Invalid parameter combination"
        "Please fix the parameter conflicts and try again."
        (validateParams (mapsWebValidationInput
          { url := "https://example.com", session_number := some 20000 })).errors :=
  ⟨(validateParams_and_mapsWeb_gate.1 _).1 ⟨rfl, Or.inl (by decide)⟩,
    validateParams_and_mapsWeb_gate.2.1
      { url := "https://example.com", session_number := some 20000 } (by decide)⟩

theorem filter_isEmpty_eq_not_any {α : Type} (p : α → Bool) (l : List α) :
    (l.filter p).isEmpty = !(l.any p) := by
  induction l with
  | nil => rfl
  | cons a t ih =>
    by_cases h : p a = true <;> simp [List.filter_cons, List.any_cons, h, ih]

/-- `matchSignature` rewritten through the external counts
`challengeMatched` / `evidenceCount`. -/
theorem matchSignature_spec (sig : AntiBotSignature) (html : String)
    (blocked : Bool) :
    matchSignature sig html blocked =
      (if 0 < evidenceCount sig html then
        some
          { name := sig.name
            confidence :=
              if challengeMatched sig html = true ∨
                  (3 ≤ evidenceCount sig html ∧ blocked = true) then .high
              else if 2 ≤ evidenceCount sig html ∨ blocked = true then .medium
              else .low
            is_actively_blocking := challengeMatched sig html && blocked
            evidence :=
              (sig.challengePatterns.filter (fun p => RePat.test p.pat html)).map
                (fun p => "Challenge pattern: " ++ p.source) ++
              (sig.htmlPatterns.filter (fun p => RePat.test p.pat html)).map
                (fun p => "Presence detected: " ++ p.source) }
      else none) := by
  have hbm : ∀ l : List ReSpec,
      (!(l.filter (fun p => RePat.test p.pat html)).isEmpty) =
        l.any (fun p => RePat.test p.pat html) := by
    intro l
    rw [filter_isEmpty_eq_not_any, Bool.not_not]
  simp only [matchSignature, challengeMatched, evidenceCount,
    List.length_append, List.length_map, hbm]

/-- C6: for every signature of the table with at least one pattern hit,
the emitted detection has confidence `high` iff a challenge pattern
matched or (evidence count ≥ 3 and the request was blocked), else `medium`
iff evidence count ≥ 2 or the request was blocked, else `low`, and
`is_actively_blocking` equals challenge-match AND blocked; `__cf_chl_`
with a blocked request yields a high-confidence actively-blocking
Cloudflare detection, while `cf-turnstile` without a blocked request is
never actively blocking. -/
theorem detectAntiBots_confidence_rule :
    (∀ sig ∈ ANTI_BOT_SIGNATURES, ∀ (html : String) (blocked : Bool)
        (d : AntiBotDetection),
      matchSignature sig html blocked = some d →
      ((d.confidence = .high ↔
          (challengeMatched sig html = true ∨
            (3 ≤ evidenceCount sig html ∧ blocked = true))) ∧
       (d.confidence = .medium ↔
          (¬(challengeMatched sig html = true ∨
              (3 ≤ evidenceCount sig html ∧ blocked = true)) ∧
            (2 ≤ evidenceCount sig html ∨ blocked = true))) ∧
       (d.confidence = .low ↔
          (¬(challengeMatched sig html = true ∨
              (3 ≤ evidenceCount sig html ∧ blocked = true)) ∧
            ¬(2 ≤ evidenceCount sig html ∨ blocked = true))) ∧
       d.is_actively_blocking = (challengeMatched sig html && blocked))) ∧
    (∀ (html : String) (blocked : Bool) (d : AntiBotDetection),
      d ∈ detectAntiBotsInHtml html blocked →
      ∃ sig ∈ ANTI_BOT_SIGNATURES,
        matchSignature sig html blocked = some d ∧
          1 ≤ evidenceCount sig html) ∧
    (∃ d ∈ detectAntiBotsInHtml "__cf_chl_" true,
      d.name = "Cloudflare" ∧ d.confidence = .high ∧
        d.is_actively_blocking = true) ∧
    (∀ d ∈ detectAntiBotsInHtml "cf-turnstile" false,
      d.is_actively_blocking = false) ∧
    (∃ d ∈ detectAntiBotsInHtml "cf-turnstile" false, d.name = "Cloudflare") := by
  refine ⟨?_, ?_, by decide, by decide, by decide⟩
  · intro sig _hsig html blocked d hm
    rw [matchSignature_spec] at hm
    by_cases hpos : 0 < evidenceCount sig html
    · rw [if_pos hpos] at hm
      obtain rfl := Option.some.inj hm
      refine ⟨?_, ?_, ?_, rfl⟩ <;>
        by_cases hC1 : challengeMatched sig html = true ∨
            (3 ≤ evidenceCount sig html ∧ blocked = true) <;>
        by_cases hC2 : 2 ≤ evidenceCount sig html ∨ blocked = true <;>
        simp [hC1, hC2]
    · rw [if_neg hpos] at hm
      exact absurd hm (by simp)
  · intro html blocked d hd
    obtain ⟨sig, hsig, hm⟩ := List.mem_filterMap.mp hd
    refine ⟨sig, hsig, hm, ?_⟩
    by_contra hlt
    rw [matchSignature_spec, if_neg (by omega)] at hm
    cases hm

/-- Witness for C6: the confidence rule evaluated on the Cloudflare
signature against the text `__cf_chl_` with a blocked request. -/
theorem detectAntiBots_confidence_rule_witness :
    (AntiBotDetection.confidence
        { name := "Cloudflare", confidence := .high,
          is_actively_blocking := true,
          evidence := ["Challenge pattern: __cf_chl_"] } = .high ↔
      (challengeMatched (ANTI_BOT_SIGNATURES.headD ⟨"", [], []⟩) "__cf_chl_" = true ∨
        (3 ≤ evidenceCount (ANTI_BOT_SIGNATURES.headD ⟨"", [], []⟩) "__cf_chl_" ∧
          true = true))) ∧
    (AntiBotDetection.confidence
        { name := "Cloudflare", confidence := .high,
          is_actively_blocking := true,
          evidence := ["Challenge pattern: __cf_chl_"] } = .medium ↔
      (¬(challengeMatched (ANTI_BOT_SIGNATURES.headD ⟨"", [], []⟩) "__cf_chl_" = true ∨
          (3 ≤ evidenceCount (ANTI_BOT_SIGNATURES.headD ⟨"", [], []⟩) "__cf_chl_" ∧
            true = true)) ∧
        (2 ≤ evidenceCount (ANTI_BOT_SIGNATURES.headD ⟨"", [], []⟩) "__cf_chl_" ∨
          true = true))) ∧
    (AntiBotDetection.confidence
        { name := "Cloudflare", confidence := .high,
          is_actively_blocking := true,
          evidence := ["Challenge pattern: __cf_chl_"] } = .low ↔
      (¬(challengeMatched (ANTI_BOT_SIGNATURES.headD ⟨"", [], []⟩) "__cf_chl_" = true ∨
          (3 ≤ evidenceCount (ANTI_BOT_SIGNATURES.headD ⟨"", [], []⟩) "__cf_chl_" ∧
            true = true)) ∧
        ¬(2 ≤ evidenceCount (ANTI_BOT_SIGNATURES.headD ⟨"", [], []⟩) "__cf_chl_" ∨
          true = true))) ∧
    AntiBotDetection.is_actively_blocking
        { name := "Cloudflare", confidence := .high,
          is_actively_blocking := true,
          evidence := ["Challenge pattern: __cf_chl_"] } =
      (challengeMatched (ANTI_BOT_SIGNATURES.headD ⟨"", [], []⟩) "__cf_chl_" && true) :=
  detectAntiBots_confidence_rule.1 (ANTI_BOT_SIGNATURES.headD ⟨"", [], []⟩)
    (by decide) "__cf_chl_" true
    { name := "Cloudflare", confidence := .high, is_actively_blocking := true,
      evidence := ["Challenge pattern: __cf_chl_"] }
    (by decide)

theorem matchSignature_name {sig : AntiBotSignature} {html : String}
    {blocked : Bool} {d : AntiBotDetection}
    (h : matchSignature sig html blocked = some d) : d.name = sig.name := by
  rw [matchSignature_spec] at h
  by_cases hpos : 0 < evidenceCount sig html
  · rw [if_pos hpos] at h
    obtain rfl := Option.some.inj h
    rfl
  · rw [if_neg hpos] at h
    cases h

/-- C7: when the fetch was blocked (failure with status 403 or 503) and no
signature hit, `detect_anti_bots` synthesizes exactly one detection named
`Unknown Anti-Bot Protection` with confidence `medium`,
`is_actively_blocking = true` and the single evidence string
`Request blocked with HTTP <code>`; when the request was not blocked, or
when some signature matched, the list is exactly the matcher's output, and
the matcher itself never produces a detection with the synthetic name. -/
theorem detectAntiBots_unknown_fallback :
    (∀ r : RequestResult,
      (!r.success && (r.statusCode == some 403 || r.statusCode == some 503)) = true →
      detectAntiBotsInHtml
          (if extractHtml r = "" then r.error.getD "" else extractHtml r)
          (!r.success && (r.statusCode == some 403 || r.statusCode == some 503)) = [] →
      detectAntiBotsFromResult r =
        [ { name := "Unknown Anti-Bot Protection"
            confidence := .medium
            is_actively_blocking := true
            evidence :=
              ["Request blocked with HTTP " ++ jsOptStatusText r.statusCode] } ]) ∧
    (∀ r : RequestResult,
      (!r.success && (r.statusCode == some 403 || r.statusCode == some 503)) = false →
      detectAntiBotsFromResult r =
        detectAntiBotsInHtml
          (if extractHtml r = "" then r.error.getD "" else extractHtml r)
          (!r.success && (r.statusCode == some 403 || r.statusCode == some 503))) ∧
    (∀ r : RequestResult,
      detectAntiBotsInHtml
          (if extractHtml r = "" then r.error.getD "" else extractHtml r)
          (!r.success && (r.statusCode == some 403 || r.statusCode == some 503)) ≠ [] →
      detectAntiBotsFromResult r =
        detectAntiBotsInHtml
          (if extractHtml r = "" then r.error.getD "" else extractHtml r)
          (!r.success && (r.statusCode == some 403 || r.statusCode == some 503))) ∧
    (∀ (html : String) (b : Bool) (d : AntiBotDetection),
      d ∈ detectAntiBotsInHtml html b →
      ¬(d.name = "Unknown Anti-Bot Protection")) := by
  refine ⟨?_, ?_, ?_, ?_⟩
  · intro r hb hempty
    simp only [detectAntiBotsFromResult]
    rw [hb] at hempty ⊢
    rw [hempty]
    simp
  · intro r hb
    simp only [detectAntiBotsFromResult]
    rw [hb]
    simp
  · intro r hne
    simp only [detectAntiBotsFromResult]
    have : (detectAntiBotsInHtml
        (if extractHtml r = "" then r.error.getD "" else extractHtml r)
        (!r.success && (r.statusCode == some 403 || r.statusCode == some 503))).isEmpty
        = false := by
      cases h : detectAntiBotsInHtml
          (if extractHtml r = "" then r.error.getD "" else extractHtml r)
          (!r.success && (r.statusCode == some 403 || r.statusCode == some 503)) with
      | nil => exact absurd h hne
      | cons a t => rfl
    rw [this]
    simp
  · intro html b d hd
    obtain ⟨sig, hsig, hm⟩ := List.mem_filterMap.mp hd
    have hname := matchSignature_name hm
    rw [hname]
    simp only [ANTI_BOT_SIGNATURES, List.mem_cons, List.mem_singleton] at hsig
    rcases hsig with rfl | rfl | rfl | rfl | rfl | rfl | rfl | rfl | rfl | rfl | rfl | h
    · decide
    · decide
    · decide
    · decide
    · decide
    · decide
    · decide
    · decide
    · decide
    · decide
    · decide
    · cases h

/-- Witness for C7: a blocked 403 failure with no pattern hit yields the
single synthetic detection. -/
theorem detectAntiBots_unknown_fallback_witness :
    detectAntiBotsFromResult
        { success := false, data := none, error := some "denied",
          errorType := some .forbidden, statusCode := some 403,
          retriesAttempted := 0 } =
      [ { name := "Unknown Anti-Bot Protection"
          confidence := .medium
          is_actively_blocking := true
          evidence :=
            ["Request blocked with HTTP " ++
              jsOptStatusText (some 403)] } ] :=
  detectAntiBots_unknown_fallback.1
    { success := false, data := none, error := some "denied",
      errorType := some .forbidden, statusCode := some 403,
      retriesAttempted := 0 }
    (by decide) (by decide)

/-- A string that is literally `a ++ (b ++ c)` contains `b`. -/
theorem strContains_of_eq_append (s a b c : String) (h : s = a ++ (b ++ c)) :
    strContains s b = true := by
  subst h
  unfold strContains
  rw [String.data_append, String.data_append]
  exact occursIn_sandwich a.data b.data c.data

/-- Rule 2's reason always contains the text `more text content` that
rule 6 tests for. -/
theorem ratioRuleReason_contains (ratio : ContentRatio) (nl jl : Nat) :
    strContains (ratioRuleReason ratio nl jl) "more text content" = true := by
  apply strContains_of_eq_append _
    ("Rendered version has " ++ ratio.toFixed1Text ++ "x ") "more text content"
    (" (" ++ toString nl ++ " → " ++ toString jl ++ " chars)")
  unfold ratioRuleReason
  rw [show ("x more text content (" : String) =
    ("x " ++ "more text content") ++ " (" from rfl]
  simp only [String.append_assoc]

/-- C8: the ratio is `Infinity` when `noJsLen = 0 < jsLen`, the exact
quotient `jsLen / noJsLen` when both are positive and `0` otherwise;
`diff = jsLen - noJsLen`; every rule is evaluated and the reasons list is
exactly the ordered concatenation of the six conditional pushes (no
short-circuiting), with `needsRendering` the OR of all six guards; rule
2's reason is appended whenever its guard holds; and rule 6 is suppressed
whenever rule 2's reason was already added, so the content-growth signal
is never reported twice (rule 6's own guard is literally `diff > 5000` and
no earlier reason containing `more text content`). -/
theorem checkJsRendering_rules (ns js : Bool) (nl jl : Nat)
    (ec nm : List String) (fw : List JSFrameworkDetection) :
    ((nl = 0 ∧ 0 < jl) →
      (checkJsRenderingCore ns js nl jl ec nm fw).contentRatio = .inf) ∧
    ((0 < nl ∧ 0 < jl) →
      (checkJsRenderingCore ns js nl jl ec nm fw).contentRatio = .frac jl nl ∧
      (checkJsRenderingCore ns js nl jl ec nm fw).contentRatio.toRatValue =
        some ((jl : ℚ) / (nl : ℚ))) ∧
    (jl = 0 →
      (checkJsRenderingCore ns js nl jl ec nm fw).contentRatio.toRatValue =
        some 0) ∧
    (∀ n d : Nat, 0 < d →
      (ContentRatio.gtOnePointFive (.frac n d) = true ↔
        (3 : ℚ) / 2 < (n : ℚ) / (d : ℚ))) ∧
    ((checkJsRenderingCore ns js nl jl ec nm fw).contentDiff =
      (jl : Int) - (nl : Int)) ∧
    ((checkJsRenderingCore ns js nl jl ec nm fw).reasons =
      (renderRule1 ns js ++
        renderRule2 (checkJsRenderingCore ns js nl jl ec nm fw).contentRatio
          (checkJsRenderingCore ns js nl jl ec nm fw).contentDiff nl jl ++
        renderRule3 ec ++ renderRule4 nm ++ renderRule5 nl fw) ++
      renderRule6 (checkJsRenderingCore ns js nl jl ec nm fw).contentDiff
        (renderRule1 ns js ++
          renderRule2 (checkJsRenderingCore ns js nl jl ec nm fw).contentRatio
            (checkJsRenderingCore ns js nl jl ec nm fw).contentDiff nl jl ++
          renderRule3 ec ++ renderRule4 nm ++ renderRule5 nl fw)) ∧
    ((checkJsRenderingCore ns js nl jl ec nm fw).needs_rendering =
      ((!ns && js) ||
        ratioRuleHolds (checkJsRenderingCore ns js nl jl ec nm fw).contentRatio
          (checkJsRenderingCore ns js nl jl ec nm fw).contentDiff ||
        !ec.isEmpty || !nm.isEmpty ||
        (decide (nl < 500) && fw.any (fun f => f.rendering_likely_required)) ||
        diffRuleHolds (checkJsRenderingCore ns js nl jl ec nm fw).contentDiff
          (renderRule1 ns js ++
            renderRule2 (checkJsRenderingCore ns js nl jl ec nm fw).contentRatio
              (checkJsRenderingCore ns js nl jl ec nm fw).contentDiff nl jl ++
            renderRule3 ec ++ renderRule4 nm ++ renderRule5 nl fw))) ∧
    (ratioRuleHolds (checkJsRenderingCore ns js nl jl ec nm fw).contentRatio
        (checkJsRenderingCore ns js nl jl ec nm fw).contentDiff = true →
      ratioRuleReason (checkJsRenderingCore ns js nl jl ec nm fw).contentRatio nl jl ∈
        (checkJsRenderingCore ns js nl jl ec nm fw).reasons) ∧
    (ratioRuleHolds (checkJsRenderingCore ns js nl jl ec nm fw).contentRatio
        (checkJsRenderingCore ns js nl jl ec nm fw).contentDiff = true →
      (checkJsRenderingCore ns js nl jl ec nm fw).reasons =
        renderRule1 ns js ++
        [ratioRuleReason (checkJsRenderingCore ns js nl jl ec nm fw).contentRatio nl jl] ++
        renderRule3 ec ++ renderRule4 nm ++ renderRule5 nl fw) := by
  refine ⟨?_, ?_, ?_, ?_, rfl, rfl, rfl, ?_, ?_⟩
  · intro h
    simp only [checkJsRenderingCore]
    rw [if_pos h]
  · rintro ⟨hnl, hjl⟩
    simp only [checkJsRenderingCore]
    rw [if_neg (by omega), if_pos ⟨hjl, hnl⟩]
    exact ⟨rfl, rfl⟩
  · intro h
    subst h
    simp only [checkJsRenderingCore]
    rw [if_neg (by omega), if_neg (by omega)]
    simp [ContentRatio.toRatValue]
  · intro n d hd
    simp only [ContentRatio.gtOnePointFive, decide_eq_true_eq]
    rw [div_lt_div_iff₀ (by norm_num) (by exact_mod_cast hd : (0 : ℚ) < (d : ℚ))]
    constructor
    · intro h
      have h' : 3 * d < n * 2 := by omega
      exact_mod_cast h'
    · intro h
      have h' : 3 * d < n * 2 := by exact_mod_cast h
      omega
  · intro h2
    simp only [checkJsRenderingCore] at h2 ⊢
    simp [renderRule2, h2, List.mem_append]
  · intro h2
    simp only [checkJsRenderingCore] at h2 ⊢
    have hmem : ratioRuleReason
        (if nl = 0 ∧ 0 < jl then ContentRatio.inf
         else if 0 < jl ∧ 0 < nl then ContentRatio.frac jl nl
         else ContentRatio.frac 0 1) nl jl ∈
        renderRule1 ns js ++
          renderRule2
            (if nl = 0 ∧ 0 < jl then ContentRatio.inf
             else if 0 < jl ∧ 0 < nl then ContentRatio.frac jl nl
             else ContentRatio.frac 0 1) ((jl : Int) - (nl : Int)) nl jl ++
          renderRule3 ec ++ renderRule4 nm ++ renderRule5 nl fw := by
      simp [renderRule2, h2, List.mem_append]
    have hany : (renderRule1 ns js ++
        renderRule2
          (if nl = 0 ∧ 0 < jl then ContentRatio.inf
           else if 0 < jl ∧ 0 < nl then ContentRatio.frac jl nl
           else ContentRatio.frac 0 1) ((jl : Int) - (nl : Int)) nl jl ++
        renderRule3 ec ++ renderRule4 nm ++ renderRule5 nl fw).any
          (fun r => strContains r "more text content") = true :=
      List.any_eq_true.mpr ⟨_, hmem, ratioRuleReason_contains _ _ _⟩
    have h6 : diffRuleHolds ((jl : Int) - (nl : Int))
        (renderRule1 ns js ++
          renderRule2
            (if nl = 0 ∧ 0 < jl then ContentRatio.inf
             else if 0 < jl ∧ 0 < nl then ContentRatio.frac jl nl
             else ContentRatio.frac 0 1) ((jl : Int) - (nl : Int)) nl jl ++
          renderRule3 ec ++ renderRule4 nm ++ renderRule5 nl fw) = false := by
      unfold diffRuleHolds
      rw [hany]
      simp
    unfold renderRule6
    rw [h6]
    simp [renderRule2, h2]

/-- Witness for C8: the spec's `noJsLen = 100, jsLen = 3000` example —
the ratio rule fires and its reason is in the output. -/
theorem checkJsRendering_rules_witness :
    ratioRuleReason
        (checkJsRenderingCore true true 100 3000 [] [] []).contentRatio 100 3000 ∈
      (checkJsRenderingCore true true 100 3000 [] [] []).reasons :=
  (checkJsRendering_rules true true 100 3000 [] [] []).2.2.2.2.2.2.2.1 (by decide)

/-- C9: with externally supplied label `obfuscated` and a supplied average
entropy, the assessment's summary embeds the entropy formatted to two
decimals; the strategy's `use` list contains no class-based recommendation
(no item even mentions classes) while its `avoid` list names CSS class
selectors; and the recommendations steer toward semantic tags, ARIA/data
attributes and embedded-JSON alternatives.  The function is a pure Lean
function of its four arguments, hence deterministic by construction. -/
theorem buildSelectorAssessment_obfuscated
    (data : CSSSelectorStabilityResponse) (stabilityScore randomRatio : Option ℚ)
    (e : ℚ) (hstab : data.css_selector_stability = "obfuscated") :
    strContains
        (buildSelectorAssessment data stabilityScore randomRatio (some e)).summary
        (ratToFixed2 e) = true ∧
    (∀ s ∈ (buildSelectorAssessment data stabilityScore randomRatio
        (some e)).strategy.use,
      strContains s "class" = false ∧ strContains s "Class" = false) ∧
    "CSS class selectors — they change on every build/deploy" ∈
      (buildSelectorAssessment data stabilityScore randomRatio
        (some e)).strategy.avoid ∧
    (∃ r ∈ (buildSelectorAssessment data stabilityScore randomRatio
        (some e)).recommendations, strContains r "semantic HTML" = true) ∧
    (∃ r ∈ (buildSelectorAssessment data stabilityScore randomRatio
        (some e)).recommendations, strContains r "data-*" = true) ∧
    (∃ r ∈ (buildSelectorAssessment data stabilityScore randomRatio
        (some e)).recommendations, strContains r "embedded JSON" = true) ∧
    (∃ s ∈ (buildSelectorAssessment data stabilityScore randomRatio
        (some e)).strategy.use, strContains s "ARIA" = true) := by
  unfold buildSelectorAssessment
  rw [hstab]
  rw [if_neg (by decide), if_pos rfl]
  refine ⟨?_, ?_, ?_, ?_, ?_, ?_, ?_⟩
  · rcases randomRatio with _ | r
    · dsimp only
      apply strContains_of_eq_append _
        ("CSS selectors are obfuscated" ++ " (avg entropy: ") (ratToFixed2 e)
        (")" ++ ("." ++ ("" ++
          " Class names appear auto-generated with high randomness (e.g., hash-based names from CSS-in-JS, styled-components, or Tailwind JIT). Do NOT rely on class names.")))
      simp only [String.append_assoc]
    · dsimp only
      apply strContains_of_eq_append _
        ("CSS selectors are obfuscated" ++ " (avg entropy: ") (ratToFixed2 e)
        (")" ++ ("." ++ (" " ++ (pctToFixed0 r ++
          ("% of selectors appear random." ++
            " Class names appear auto-generated with high randomness (e.g., hash-based names from CSS-in-JS, styled-components, or Tailwind JIT). Do NOT rely on class names.")))))
      simp only [String.append_assoc]
  · dsimp only
    decide
  · dsimp only
    decide
  · dsimp only
    decide
  · dsimp only
    decide
  · dsimp only
    decide
  · dsimp only
    decide

/-- Witness for C9 at label `obfuscated` with entropy `4.2`. -/
theorem buildSelectorAssessment_obfuscated_witness :
    strContains
        (buildSelectorAssessment
          { css_selector_stability := "obfuscated" } none none
          (some sampleEntropy)).summary
        (ratToFixed2 sampleEntropy) = true ∧
    (∀ s ∈ (buildSelectorAssessment
        { css_selector_stability := "obfuscated" } none none
        (some sampleEntropy)).strategy.use,
      strContains s "class" = false ∧ strContains s "Class" = false) ∧
    "CSS class selectors — they change on every build/deploy" ∈
      (buildSelectorAssessment
        { css_selector_stability := "obfuscated" } none none
        (some sampleEntropy)).strategy.avoid ∧
    (∃ r ∈ (buildSelectorAssessment
        { css_selector_stability := "obfuscated" } none none
        (some sampleEntropy)).recommendations,
      strContains r "semantic HTML" = true) ∧
    (∃ r ∈ (buildSelectorAssessment
        { css_selector_stability := "obfuscated" } none none
        (some sampleEntropy)).recommendations,
      strContains r "data-*" = true) ∧
    (∃ r ∈ (buildSelectorAssessment
        { css_selector_stability := "obfuscated" } none none
        (some sampleEntropy)).recommendations,
      strContains r "embedded JSON" = true) ∧
    (∃ s ∈ (buildSelectorAssessment
        { css_selector_stability := "obfuscated" } none none
        (some sampleEntropy)).strategy.use,
      strContains s "ARIA" = true) :=
  buildSelectorAssessment_obfuscated
    { css_selector_stability := "obfuscated" } none none sampleEntropy rfl
